import Mathlib

/-!
Shallow embedding of the club/event management business logic of the
Kmit-clubs-hub repository (`src/business_logic.py`, class
`ClubManagementSystem`).

Modelling conventions:
* Mongo document ids are `String`s; `ObjectId(x)`/`str(x)` round-trips are
  dropped since both sides compare ids as strings.
* `find_one(filter)` over a collection is `List.find?` (first match in
  insertion order); `update_one`/`replace_one` modify the first match
  (`updateFirst`); `$push` appends at the end of the embedded list.
* `datetime.utcnow()` is an explicit `now : Nat` argument; the stored event
  date string is kept unparsed (the `strptime` call is an external
  collaborator and no claim depends on the date format).
* User roles are the strings stored in the documents ("student", "faculty",
  "admin", compared against `UserRole.*.value` in the source); membership
  roles are free-form strings.
* The redis channel is modelled by a `redisOk : Bool` flag: when `false`
  the publish raises and `_publish_notification` swallows the failure,
  leaving the store unchanged; when `true` the message is appended to a
  `published` log.
* Each operation returns `OpResult × DB`: the source's
  `(True, payload)` / `(False, error-dict)` pair together with the
  (possibly mutated) store.  The source's `try/except` wrappers can hit a
  mid-operation `None` dereference after a write has already happened
  (e.g. the notification lookups); those paths return `.err` with the
  already-mutated store, exactly as the database would be left.
-/

namespace ClubsHub

/-- Membership status values of the `MembershipStatus` enum. -/
inductive MembershipStatus where
  | pending
  | active
  | rejected
  deriving DecidableEq, Repr

/-- Event status values of the `EventStatus` enum. -/
inductive EventStatus where
  | draft
  | pending
  | approved
  | rejected
  | cancelled
  deriving DecidableEq, Repr

/-- A membership record embedded in a club document (`join_club` shape). -/
structure Membership where
  userId : String
  role : String
  status : MembershipStatus
  joinedAt : Nat
  deriving DecidableEq, Repr

/-- A club document (`create_club` shape); `events` holds event ids. -/
structure Club where
  id : String
  name : String
  description : String
  category : String
  mission : String
  vision : String
  facultyCoordinator : String
  isActive : Bool
  members : List Membership
  events : List String
  createdAt : Nat
  deriving DecidableEq, Repr

/-- A registration record embedded in an event (`register_for_event` shape). -/
structure Registration where
  userId : String
  registeredAt : Nat
  deriving DecidableEq, Repr

/-- An event document (`create_event` shape). -/
structure Event where
  id : String
  title : String
  description : String
  clubId : String
  organizer : String
  eventType : String
  venue : String
  date : String
  startTime : String
  endTime : String
  maxParticipants : Int
  budgetRequested : Int
  budgetApproved : Int
  status : EventStatus
  registeredParticipants : List Registration
  approvedBy : Option String
  approvalNotes : String
  createdAt : Nat
  deriving DecidableEq, Repr

/-- A user document (`register_user` shape); `clubs` holds
`(clubId, role)` references pushed by `join_club`. -/
structure User where
  id : String
  name : String
  email : String
  password : String
  role : String
  isActive : Bool
  studentId : Option String
  year : Option String
  department : String
  clubs : List (String × String)
  createdAt : Nat
  deriving DecidableEq, Repr

/-- The document store (`self.db`) plus the log of successfully published
notifications. -/
structure DB where
  users : List User
  clubs : List Club
  events : List Event
  published : List (String × List (String × String))
  deriving DecidableEq, Repr

/-- Outcome of an operation: the source returns `(True, {"message": ...})`
on success and `(False, {"error": ...})` on failure. -/
inductive OpResult where
  | ok (msg : String)
  | err (msg : String)
  deriving DecidableEq, Repr

/-- Mongo `update_one` / `replace_one`: rewrite the first element matching
the filter, leave the rest untouched. -/
def updateFirst (p : α → Bool) (f : α → α) : List α → List α
  | [] => []
  | a :: as => if p a then f a :: as else a :: updateFirst p f as

/-- `_publish_notification`: best-effort publish to the redis channel.  A
raising publish (`redisOk = false`) is caught and logged inside the helper,
so the store (and the caller) are unaffected. -/
def _publish_notification (redisOk : Bool) (channel : String)
    (msg : List (String × String)) (db : DB) : DB :=
  if redisOk then { db with published := db.published ++ [(channel, msg)] }
  else db

/-- The `user['role'] in [UserRole.FACULTY.value, UserRole.ADMIN.value]`
check, preceded by the `find_one({"_id": user_id})` lookup. -/
def isFacultyOrAdmin (db : DB) (userId : String) : Bool :=
  match db.users.find? (fun u => u.id == userId) with
  | some u => u.role == "faculty" || u.role == "admin"
  | none => false

/-- The `member['role'] in ['president', 'vice-president', 'secretary']`
officer test of `_can_approve_membership`. -/
def isOfficerRole (r : String) : Bool :=
  r == "president" || r == "vice-president" || r == "secretary"

/-- `_can_approve_membership`: faculty/admin always may; otherwise the
member loop returns true on an active officer membership of the actor. -/
def _can_approve_membership (db : DB) (club : Club) (userId : String) : Bool :=
  if isFacultyOrAdmin db userId then true
  else club.members.any fun m =>
    m.userId == userId && decide (m.status = MembershipStatus.active)
      && isOfficerRole m.role

/-- `_can_create_event`: faculty/admin always may; otherwise any active
membership of the actor suffices, whatever its role. -/
def _can_create_event (db : DB) (club : Club) (userId : String) : Bool :=
  if isFacultyOrAdmin db userId then true
  else club.members.any fun m =>
    m.userId == userId && decide (m.status = MembershipStatus.active)

/-- Input dictionary of `register_user`; `none` marks an absent key. -/
structure UserData where
  name : Option String
  email : Option String
  password : Option String
  role : Option String
  studentId : Option String
  year : Option String
  department : Option String
  deriving DecidableEq, Repr

/-- bcrypt password hashing is an external primitive; the embedding keeps
the digest abstract as a tagged string. -/
def hashpw (p : String) : String := "bcrypt:" ++ p

/-- `register_user`: field validation, duplicate email / duplicate student
id checks, then insert of the new user document (id `newId`). -/
def register_user (db : DB) (d : UserData) (newId : String) (now : Nat) :
    OpResult × DB :=
  if d.name.isNone || d.email.isNone || d.password.isNone || d.role.isNone then
    (.err "Missing required fields", db)
  else
    let em := d.email.getD ""
    let rl := d.role.getD ""
    if (db.users.find? (fun u => u.email == em)).isSome then
      (.err "Email already exists", db)
    else if rl == "student" && (d.studentId.isNone || d.year.isNone) then
      (.err "Student ID and year required for students", db)
    else if rl == "student"
        && (db.users.find? (fun u => u.studentId == d.studentId)).isSome then
      (.err "Student ID already exists", db)
    else
      let user : User :=
        { id := newId
          name := d.name.getD ""
          email := em
          password := hashpw (d.password.getD "")
          role := rl
          isActive := true
          studentId := if rl == "student" then d.studentId else none
          year := if rl == "student" then d.year else none
          department := d.department.getD ""
          clubs := []
          createdAt := now }
      (.ok "User registered successfully", { db with users := db.users ++ [user] })

/-- Input dictionary of `create_club`. -/
structure ClubData where
  name : Option String
  description : Option String
  category : Option String
  mission : Option String
  vision : Option String
  deriving DecidableEq, Repr

/-- `create_club`: creator must exist with role faculty/admin, fields must
be present, name must be fresh; then insert and publish. -/
def create_club (redisOk : Bool) (db : DB) (cd : ClubData)
    (creatorId newId : String) (now : Nat) : OpResult × DB :=
  match db.users.find? (fun u => u.id == creatorId) with
  | none => (.err "Unauthorized to create clubs", db)
  | some creator =>
    if !(creator.role == "faculty" || creator.role == "admin") then
      (.err "Unauthorized to create clubs", db)
    else if cd.name.isNone || cd.description.isNone || cd.category.isNone
        || cd.mission.isNone || cd.vision.isNone then
      (.err "Missing required fields", db)
    else if (db.clubs.find? (fun c => c.name == cd.name.getD "")).isSome then
      (.err "Club name already exists", db)
    else
      let club : Club :=
        { id := newId
          name := cd.name.getD ""
          description := cd.description.getD ""
          category := cd.category.getD ""
          mission := cd.mission.getD ""
          vision := cd.vision.getD ""
          facultyCoordinator := creatorId
          isActive := true
          members := []
          events := []
          createdAt := now }
      (.ok "Club created successfully",
        _publish_notification redisOk "club-updates"
          [("type", "club-created"), ("clubId", newId),
           ("clubName", club.name), ("timestamp", toString now)]
          { db with clubs := db.clubs ++ [club] })

/-- `join_club`: active club required, duplicate membership (any status)
rejected, then a pending membership is pushed onto the club, the club ref
is pushed onto the user document, and a notification (needing the user's
name) is published.  A missing user document makes the name lookup raise
after the pushes, yielding the catch-all error with the store mutated. -/
def join_club (redisOk : Bool) (db : DB) (clubId userId : String)
    (now : Nat) : OpResult × DB :=
  match db.clubs.find? (fun c => c.id == clubId) with
  | none => (.err "Club not found", db)
  | some club =>
    if !club.isActive then (.err "Club not found", db)
    else if club.members.any (fun m => m.userId == userId) then
      (.err "Already a member of this club", db)
    else
      let membership : Membership :=
        { userId := userId, role := "member",
          status := MembershipStatus.pending, joinedAt := now }
      let clubs1 := updateFirst (fun c => c.id == clubId)
        (fun c => { c with members := c.members ++ [membership] }) db.clubs
      let db1 := { db with clubs := clubs1 }
      let users1 := updateFirst (fun u => u.id == userId)
        (fun u => { u with clubs := u.clubs ++ [(clubId, "member")] }) db1.users
      let db2 := { db1 with users := users1 }
      match db2.users.find? (fun u => u.id == userId) with
      | none => (.err "Failed to join club: user name lookup raised", db2)
      | some user =>
        (.ok "Membership request sent successfully",
          _publish_notification redisOk "club-updates"
            [("type", "membership-request"), ("clubId", clubId),
             ("userId", userId), ("clubName", club.name),
             ("userName", user.name), ("timestamp", toString now)] db2)

/-- The member-update loop of `approve_membership`: set the first
membership of `userId` to active; `none` when no membership matches
(`updated` stays false in the source). -/
def setMemberActive (userId : String) :
    List Membership → Option (List Membership)
  | [] => none
  | m :: ms =>
    if m.userId == userId then
      some ({ m with status := MembershipStatus.active } :: ms)
    else (setMemberActive userId ms).map (m :: ·)

/-- `approve_membership`: club lookup, `_can_approve_membership` gate,
in-memory member update, then `replace_one` of the whole club document.
The status is set to active whatever it was before. -/
def approve_membership (db : DB) (clubId memberId approverId : String) :
    OpResult × DB :=
  match db.clubs.find? (fun c => c.id == clubId) with
  | none => (.err "Club not found", db)
  | some club =>
    if !(_can_approve_membership db club approverId) then
      (.err "Insufficient permissions", db)
    else
      match setMemberActive memberId club.members with
      | none => (.err "Member not found", db)
      | some ms =>
        let clubs1 := updateFirst (fun c => c.id == clubId)
          (fun _ => { club with members := ms }) db.clubs
        (.ok "Membership approved successfully", { db with clubs := clubs1 })

/-- Input dictionary of `create_event`. -/
structure EventData where
  title : Option String
  description : Option String
  clubId : Option String
  eventType : Option String
  venue : Option String
  date : Option String
  startTime : Option String
  endTime : Option String
  maxParticipants : Option Int
  budget : Option Int
  deriving DecidableEq, Repr

/-- `create_event`: field validation, active club lookup,
`_can_create_event` gate, insert of a pending event, push of the event id
onto the club, creator-name lookup for the notification, publish. -/
def create_event (redisOk : Bool) (db : DB) (ed : EventData)
    (creatorId newId : String) (now : Nat) : OpResult × DB :=
  if ed.title.isNone || ed.description.isNone || ed.clubId.isNone
      || ed.eventType.isNone || ed.venue.isNone || ed.date.isNone
      || ed.startTime.isNone || ed.endTime.isNone then
    (.err "Missing required fields", db)
  else
    let clubId := ed.clubId.getD ""
    match db.clubs.find? (fun c => c.id == clubId) with
    | none => (.err "Club not found", db)
    | some club =>
      if !club.isActive then (.err "Club not found", db)
      else if !(_can_create_event db club creatorId) then
        (.err "Not authorized to create events for this club", db)
      else
        let event : Event :=
          { id := newId
            title := ed.title.getD ""
            description := ed.description.getD ""
            clubId := clubId
            organizer := creatorId
            eventType := ed.eventType.getD ""
            venue := ed.venue.getD ""
            date := ed.date.getD ""
            startTime := ed.startTime.getD ""
            endTime := ed.endTime.getD ""
            maxParticipants := ed.maxParticipants.getD 0
            budgetRequested := ed.budget.getD 0
            budgetApproved := 0
            status := EventStatus.pending
            registeredParticipants := []
            approvedBy := none
            approvalNotes := ""
            createdAt := now }
        let db1 := { db with events := db.events ++ [event] }
        let clubs1 := updateFirst (fun c => c.id == clubId)
          (fun c => { c with events := c.events ++ [newId] }) db1.clubs
        let db2 := { db1 with clubs := clubs1 }
        match db2.users.find? (fun u => u.id == creatorId) with
        | none => (.err "Failed to create event: creator name lookup raised", db2)
        | some creator =>
          (.ok "Event created successfully",
            _publish_notification redisOk "event-updates"
              [("type", "event-created"), ("eventId", newId),
               ("clubId", clubId), ("title", event.title),
               ("organizer", creator.name), ("timestamp", toString now)] db2)

/-- `register_for_event`: event lookup, duplicate-registration check,
capacity check (`maxParticipants > 0` and count at capacity), then push of
a timestamped registration. -/
def register_for_event (db : DB) (eventId userId : String) (now : Nat) :
    OpResult × DB :=
  match db.events.find? (fun e => e.id == eventId) with
  | none => (.err "Event not found", db)
  | some event =>
    if event.registeredParticipants.any (fun r => r.userId == userId) then
      (.err "Already registered for this event", db)
    else if event.maxParticipants > 0
        ∧ (event.registeredParticipants.length : Int) ≥ event.maxParticipants then
      (.err "Event is full", db)
    else
      let events1 := updateFirst (fun e => e.id == eventId)
        (fun e => { e with registeredParticipants :=
          e.registeredParticipants
            ++ [{ userId := userId, registeredAt := now }] }) db.events
      (.ok "Successfully registered for event", { db with events := events1 })

/-- Input dictionary of `approve_event` (`approver_data`). -/
structure ApproverData where
  approvalNotes : Option String
  approvedBudget : Option Int
  deriving DecidableEq, Repr

/-- `approve_event`: global-role-only authorization (faculty/admin), event
lookup, `$set` of status/approver/notes/approved budget on the first
matching event, then a club-name lookup for the notification.  A missing
club makes that lookup raise after the update, yielding the catch-all
error with the event already approved. -/
def approve_event (redisOk : Bool) (db : DB) (eventId : String)
    (ad : ApproverData) (approverId : String) (now : Nat) : OpResult × DB :=
  match db.users.find? (fun u => u.id == approverId) with
  | none => (.err "Unauthorized to approve events", db)
  | some approver =>
    if !(approver.role == "faculty" || approver.role == "admin") then
      (.err "Unauthorized to approve events", db)
    else
      match db.events.find? (fun e => e.id == eventId) with
      | none => (.err "Event not found", db)
      | some event =>
        let events1 := updateFirst (fun e => e.id == eventId)
          (fun e => { e with
            status := EventStatus.approved
            approvedBy := some approverId
            approvalNotes := ad.approvalNotes.getD ""
            budgetApproved := ad.approvedBudget.getD 0 }) db.events
        let db1 := { db with events := events1 }
        match db1.clubs.find? (fun c => c.id == event.clubId) with
        | none => (.err "Failed to approve event: club name lookup raised", db1)
        | some club =>
          (.ok "Event approved successfully",
            _publish_notification redisOk "event-updates"
              [("type", "event-approved"), ("eventId", eventId),
               ("title", event.title), ("clubName", club.name),
               ("approvedBy", approver.name), ("timestamp", toString now)] db1)

/-- One caller-visible mutating operation of the system together with its
external inputs (fresh document ids, the clock, redis health). -/
inductive Action where
  | registerUser (d : UserData) (newId : String) (now : Nat)
  | createClub (redisOk : Bool) (cd : ClubData) (creatorId newId : String)
      (now : Nat)
  | joinClub (redisOk : Bool) (clubId userId : String) (now : Nat)
  | approveMembership (clubId memberId approverId : String)
  | createEvent (redisOk : Bool) (ed : EventData) (creatorId newId : String)
      (now : Nat)
  | registerForEvent (eventId userId : String) (now : Nat)
  | approveEvent (redisOk : Bool) (eventId : String) (ad : ApproverData)
      (approverId : String) (now : Nat)

/-- The store an operation leaves behind (its result is discarded). -/
def applyAction (a : Action) (db : DB) : DB :=
  match a with
  | .registerUser d newId now => (register_user db d newId now).2
  | .createClub redisOk cd creatorId newId now =>
      (create_club redisOk db cd creatorId newId now).2
  | .joinClub redisOk clubId userId now =>
      (join_club redisOk db clubId userId now).2
  | .approveMembership clubId memberId approverId =>
      (approve_membership db clubId memberId approverId).2
  | .createEvent redisOk ed creatorId newId now =>
      (create_event redisOk db ed creatorId newId now).2
  | .registerForEvent eventId userId now =>
      (register_for_event db eventId userId now).2
  | .approveEvent redisOk eventId ad approverId now =>
      (approve_event redisOk db eventId ad approverId now).2

/-- Run a sequence of operations left to right. -/
def applyActions : List Action → DB → DB
  | [], db => db
  | a :: as, db => applyActions as (applyAction a db)

/-- Run a sequence of `register_user` calls left to right. -/
def registerAll (db : DB) : List (UserData × String × Nat) → DB
  | [] => db
  | (d, newId, now) :: rest => registerAll (register_user db d newId now).2 rest

/-- Status of the first membership of `userId` in the first club matching
`clubId`, as the operations themselves would look it up. -/
def getMemberStatus (db : DB) (clubId userId : String) :
    Option MembershipStatus :=
  (db.clubs.find? (fun c => c.id == clubId)).bind fun c =>
    (c.members.find? (fun m => m.userId == userId)).map (·.status)

/-- Overwrite the status of the first event matching `eventId`. -/
def setEventStatus (db : DB) (eventId : String) (s : EventStatus) : DB :=
  let events1 := updateFirst (fun e => e.id == eventId)
    (fun e => { e with status := s }) db.events
  { db with events := events1 }

/-- Emails are pairwise distinct across the user store. -/
def emailsUnique (us : List User) : Prop :=
  us.Pairwise (fun u v => u.email ≠ v.email)

/-- Student ids, where present, are pairwise distinct across the store. -/
def studentIdsUnique (us : List User) : Prop :=
  us.Pairwise (fun u v => ∀ s, u.studentId = some s → v.studentId ≠ some s)

/-- No membership anywhere in the store carries status `rejected`. -/
def noRejected (db : DB) : Prop :=
  ∀ c ∈ db.clubs, ∀ m ∈ c.members, m.status ≠ MembershipStatus.rejected

/-- The member list after `approve_membership` sets the first membership
of `memberId` to active (the loop body of the source). -/
def activateMember (memberId : String) (ms : List Membership) :
    List Membership :=
  updateFirst (fun m => m.userId == memberId)
    (fun m => { m with status := MembershipStatus.active }) ms

/-- The club document `approve_membership` writes back on success. -/
def approvedClub (club : Club) (memberId : String) : Club :=
  { club with members := activateMember memberId club.members }

/-- The store left by a successful `approve_membership`. -/
def approvedDB (db : DB) (clubId : String) (club : Club) (memberId : String) :
    DB :=
  let clubs1 := updateFirst (fun c => c.id == clubId)
    (fun _ => approvedClub club memberId) db.clubs
  { db with clubs := clubs1 }

/-- Sample user for concrete instantiations of the theorems. -/
def sampleUser (i em rl : String) : User :=
  { id := i, name := "name-" ++ i, email := em, password := "pw", role := rl,
    isActive := true, studentId := none, year := none, department := "",
    clubs := [], createdAt := 0 }

/-- Sample membership record. -/
def sampleMember (uid rl : String) (st : MembershipStatus) : Membership :=
  { userId := uid, role := rl, status := st, joinedAt := 0 }

/-- Sample club with a given member list. -/
def sampleClub (i : String) (ms : List Membership) : Club :=
  { id := i, name := "club-" ++ i, description := "d", category := "c",
    mission := "m", vision := "v", facultyCoordinator := "f1",
    isActive := true, members := ms, events := [], createdAt := 0 }

/-- Sample event with a given capacity, registration list and status. -/
def sampleEvent (i cid : String) (maxP : Int) (regs : List Registration)
    (st : EventStatus) : Event :=
  { id := i, title := "t", description := "d", clubId := cid,
    organizer := "f1", eventType := "e", venue := "v", date := "2026-01-01",
    startTime := "10:00", endTime := "11:00", maxParticipants := maxP,
    budgetRequested := 0, budgetApproved := 0, status := st,
    registeredParticipants := regs, approvedBy := none, approvalNotes := "",
    createdAt := 0 }

/-! ### Helper lemmas about the store primitives -/

theorem updateFirst_find? {α : Type} {p : α → Bool} {f : α → α}
    (hp : ∀ a, p a = true → p (f a) = true) (l : List α) :
    (updateFirst p f l).find? p = (l.find? p).map f := by
  induction l with
  | nil => rfl
  | cons a as ih =>
    by_cases h : p a = true
    · simp [updateFirst, h, hp a h]
    · simp [updateFirst, h, ih]

theorem mem_updateFirst {α : Type} {p : α → Bool} {f : α → α} {l : List α}
    {x : α} (hx : x ∈ updateFirst p f l) : x ∈ l ∨ ∃ a ∈ l, x = f a := by
  induction l with
  | nil => simp [updateFirst] at hx
  | cons a as ih =>
    by_cases h : p a = true
    · rw [updateFirst, if_pos h] at hx
      rcases List.mem_cons.mp hx with h1 | h1
      · exact Or.inr ⟨a, List.mem_cons_self a as, h1⟩
      · exact Or.inl (List.mem_cons_of_mem a h1)
    · rw [updateFirst, if_neg h] at hx
      rcases List.mem_cons.mp hx with h1 | h1
      · exact Or.inl (h1 ▸ List.mem_cons_self a as)
      · rcases ih h1 with h2 | ⟨b, hb, h3⟩
        · exact Or.inl (List.mem_cons_of_mem a h2)
        · exact Or.inr ⟨b, List.mem_cons_of_mem a hb, h3⟩

theorem updateFirst_idem {α : Type} {p : α → Bool} {f : α → α}
    (hp : ∀ a, p a = true → p (f a) = true)
    (hf : ∀ a, p a = true → f (f a) = f a) (l : List α) :
    updateFirst p f (updateFirst p f l) = updateFirst p f l := by
  induction l with
  | nil => rfl
  | cons a as ih =>
    by_cases h : p a = true
    · simp [updateFirst, h, hp a h, hf a h]
    · simp [updateFirst, h, ih]

theorem any_updateFirst_congr {α : Type} {p : α → Bool} {f : α → α}
    {q : α → Bool} (hq : ∀ a, q (f a) = q a) (l : List α) :
    (updateFirst p f l).any q = l.any q := by
  induction l with
  | nil => rfl
  | cons a as ih =>
    by_cases h : p a = true
    · simp [updateFirst, h, hq a]
    · simp [updateFirst, h, ih]

theorem any_updateFirst_mono {α : Type} {p : α → Bool} {f : α → α}
    {q : α → Bool} (hq : ∀ a, q a = true → q (f a) = true) {l : List α}
    (h : l.any q = true) : (updateFirst p f l).any q = true := by
  induction l with
  | nil => simp at h
  | cons a as ih =>
    simp only [List.any_cons, Bool.or_eq_true] at h
    by_cases hpa : p a = true
    · rw [updateFirst, if_pos hpa]
      simp only [List.any_cons, Bool.or_eq_true]
      rcases h with h | h
      · exact Or.inl (hq a h)
      · exact Or.inr h
    · rw [updateFirst, if_neg hpa]
      simp only [List.any_cons, Bool.or_eq_true]
      rcases h with h | h
      · exact Or.inl h
      · exact Or.inr (ih h)

theorem setMemberActive_eq (uid : String) (ms : List Membership) :
    setMemberActive uid ms =
      if ms.any (fun m => m.userId == uid) then
        some (updateFirst (fun m => m.userId == uid)
          (fun m => { m with status := MembershipStatus.active }) ms)
      else none := by
  induction ms with
  | nil => rfl
  | cons m ms ih =>
    by_cases h : (m.userId == uid) = true
    · simp [setMemberActive, updateFirst, h]
    · simp only [setMemberActive, updateFirst, h, ih, List.any_cons,
        Bool.false_or, if_neg, Bool.or_eq_true]
      by_cases h2 : ms.any (fun m => m.userId == uid) = true
      · simp [h, h2]
      · simp [h, h2]

theorem publish_users (r : Bool) (c : String) (m : List (String × String))
    (db : DB) : (_publish_notification r c m db).users = db.users := by
  cases r <;> rfl

theorem publish_clubs (r : Bool) (c : String) (m : List (String × String))
    (db : DB) : (_publish_notification r c m db).clubs = db.clubs := by
  cases r <;> rfl

theorem publish_events (r : Bool) (c : String) (m : List (String × String))
    (db : DB) : (_publish_notification r c m db).events = db.events := by
  cases r <;> rfl

theorem approve_membership_ok (db : DB) (clubId memberId approverId : String)
    (club : Club)
    (hfind : db.clubs.find? (fun c => c.id == clubId) = some club)
    (hauth : _can_approve_membership db club approverId = true)
    (hany : club.members.any (fun m => m.userId == memberId) = true) :
    approve_membership db clubId memberId approverId
      = (OpResult.ok "Membership approved successfully",
        approvedDB db clubId club memberId) := by
  have hset : setMemberActive memberId club.members
      = some (activateMember memberId club.members) := by
    rw [setMemberActive_eq, if_pos hany]
    rfl
  simp only [approve_membership, hfind, hauth, Bool.not_true,
    Bool.false_eq_true, if_false, hset, approvedDB, approvedClub]

/-! ### Claim theorems -/

/-- C1: `_can_approve_membership` returns true for every actor whose global
role is faculty or admin regardless of membership state; for any other
actor it returns true exactly when the actor has a membership in the club
with status active and role president, vice-president or secretary; an
actor with no membership record in the club (and no faculty/admin role)
gets false. -/
theorem can_approve_membership_spec (db : DB) (club : Club) (uid : String) :
    (∀ u, db.users.find? (fun v => v.id == uid) = some u →
      u.role = "faculty" ∨ u.role = "admin" →
      _can_approve_membership db club uid = true)
    ∧ (isFacultyOrAdmin db uid = false →
      (_can_approve_membership db club uid = true ↔
        ∃ m ∈ club.members, m.userId = uid
          ∧ m.status = MembershipStatus.active
          ∧ (m.role = "president" ∨ m.role = "vice-president"
             ∨ m.role = "secretary")))
    ∧ ((∀ m ∈ club.members, m.userId ≠ uid) →
      isFacultyOrAdmin db uid = false →
      _can_approve_membership db club uid = false) := by
  refine ⟨?_, ?_, ?_⟩
  · intro u hu hrole
    have hfa : isFacultyOrAdmin db uid = true := by
      rw [isFacultyOrAdmin, hu]
      rcases hrole with h | h <;> simp [h]
    simp [_can_approve_membership, hfa]
  · intro hfa
    rw [_can_approve_membership, if_neg (by simp [hfa]), List.any_eq_true]
    constructor
    · rintro ⟨m, hm, hpred⟩
      simp only [Bool.and_eq_true, beq_iff_eq, decide_eq_true_eq,
        isOfficerRole, Bool.or_eq_true] at hpred
      exact ⟨m, hm, hpred.1.1, hpred.1.2, or_assoc.mp hpred.2⟩
    · rintro ⟨m, hm, h1, h2, h3⟩
      refine ⟨m, hm, ?_⟩
      simp only [Bool.and_eq_true, beq_iff_eq, decide_eq_true_eq,
        isOfficerRole, Bool.or_eq_true]
      exact ⟨⟨h1, h2⟩, or_assoc.mpr h3⟩
  · intro hnone hfa
    rw [_can_approve_membership, if_neg (by simp [hfa])]
    rw [List.any_eq_false]
    intro m hm
    simp only [Bool.and_eq_true, beq_iff_eq, not_and]
    intro h1
    exact absurd h1.1 (hnone m hm)

/-- C1 witness: a faculty actor with no membership may approve. -/
theorem can_approve_membership_spec_witness :
    _can_approve_membership
      { users := [sampleUser "f1" "f@x" "faculty"], clubs := [], events := [],
        published := [] }
      (sampleClub "c1" [sampleMember "s1" "member" MembershipStatus.active])
      "f1" = true :=
  (can_approve_membership_spec _ _ _).1 (sampleUser "f1" "f@x" "faculty")
    (by decide) (Or.inl rfl)

/-- C7: `_can_create_event` returns true for faculty/admin actors, and
otherwise exactly when the actor has an active membership in the club,
whatever its in-club role. -/
theorem can_create_event_spec (db : DB) (club : Club) (uid : String) :
    (∀ u, db.users.find? (fun v => v.id == uid) = some u →
      u.role = "faculty" ∨ u.role = "admin" →
      _can_create_event db club uid = true)
    ∧ (isFacultyOrAdmin db uid = false →
      (_can_create_event db club uid = true ↔
        ∃ m ∈ club.members, m.userId = uid
          ∧ m.status = MembershipStatus.active)) := by
  refine ⟨?_, ?_⟩
  · intro u hu hrole
    have hfa : isFacultyOrAdmin db uid = true := by
      rw [isFacultyOrAdmin, hu]
      rcases hrole with h | h <;> simp [h]
    simp [_can_create_event, hfa]
  · intro hfa
    rw [_can_create_event, if_neg (by simp [hfa]), List.any_eq_true]
    constructor
    · rintro ⟨m, hm, hpred⟩
      simp only [Bool.and_eq_true, beq_iff_eq, decide_eq_true_eq] at hpred
      exact ⟨m, hm, hpred.1, hpred.2⟩
    · rintro ⟨m, hm, h1, h2⟩
      refine ⟨m, hm, ?_⟩
      simp only [Bool.and_eq_true, beq_iff_eq, decide_eq_true_eq]
      exact ⟨h1, h2⟩

/-- C7 witness: a plain active member of the club may create an event,
a pending member may not. -/
theorem can_create_event_spec_witness :
    _can_create_event
      { users := [sampleUser "s1" "s@x" "student"], clubs := [], events := [],
        published := [] }
      (sampleClub "c1" [sampleMember "s1" "member" MembershipStatus.active])
      "s1" = true
    ∧ _can_create_event
      { users := [sampleUser "s1" "s@x" "student"], clubs := [], events := [],
        published := [] }
      (sampleClub "c1" [sampleMember "s1" "member" MembershipStatus.pending])
      "s1" = false :=
  ⟨((can_create_event_spec _ _ _).2 (by decide)).mpr
      ⟨sampleMember "s1" "member" MembershipStatus.active, by decide, rfl, rfl⟩,
    by decide⟩

/-- C10: `register_for_event` never inspects the event's status —
overwriting the status of the target event with any value leaves the
outcome unchanged, and for an existing event (whatever its status)
registration succeeds whenever the user is not already registered and
capacity is not exceeded. -/
theorem register_for_event_ignores_status (db : DB) (eventId userId : String)
    (now : Nat) (s : EventStatus) :
    (register_for_event (setEventStatus db eventId s) eventId userId now).1
      = (register_for_event db eventId userId now).1
    ∧ (∀ event, db.events.find? (fun e => e.id == eventId) = some event →
        (∀ r ∈ event.registeredParticipants, r.userId ≠ userId) →
        (event.maxParticipants ≤ 0
          ∨ (event.registeredParticipants.length : Int) < event.maxParticipants) →
        (register_for_event db eventId userId now).1
          = OpResult.ok "Successfully registered for event") := by
  constructor
  · have hev : (setEventStatus db eventId s).events
        = updateFirst (fun e => e.id == eventId)
            (fun e => { e with status := s }) db.events := rfl
    have huf := @updateFirst_find? Event (fun e => e.id == eventId)
      (fun e => { e with status := s }) (fun a ha => ha) db.events
    cases hcase : db.events.find? (fun e => e.id == eventId) with
    | none =>
      have hfind : (setEventStatus db eventId s).events.find?
          (fun e => e.id == eventId) = none := by
        rw [hev, huf, hcase]; rfl
      simp [register_for_event, hfind, hcase]
    | some ev =>
      have hfind : (setEventStatus db eventId s).events.find?
          (fun e => e.id == eventId) = some { ev with status := s } := by
        rw [hev, huf, hcase]; rfl
      simp only [register_for_event, hfind, hcase]
      by_cases h1 : ev.registeredParticipants.any
          (fun r => r.userId == userId) = true
      · simp [h1]
      · by_cases h2 : ev.maxParticipants > 0
            ∧ (ev.registeredParticipants.length : Int) ≥ ev.maxParticipants
        · simp [h1, h2]
        · simp [h1, h2]
  · intro event hfind hnreg hcap
    have hany : event.registeredParticipants.any
        (fun r => r.userId == userId) = false := by
      rw [List.any_eq_false]
      intro r hr
      simpa using hnreg r hr
    have hc : ¬(event.maxParticipants > 0
        ∧ (event.registeredParticipants.length : Int) ≥ event.maxParticipants) := by
      rcases hcap with h | h <;> (intro hh; omega)
    simp [register_for_event, hfind, hany, hc]

/-- C10 witness: a draft event accepts a registration. -/
theorem register_for_event_ignores_status_witness :
    (register_for_event
      { users := [], clubs := [],
        events := [sampleEvent "e1" "c1" 2 [] EventStatus.draft],
        published := [] } "e1" "u1" 5).1
      = OpResult.ok "Successfully registered for event" :=
  (register_for_event_ignores_status _ "e1" "u1" 5 EventStatus.draft).2
    (sampleEvent "e1" "c1" 2 [] EventStatus.draft) (by decide) (by decide)
    (by decide)

/-- C4: `register_for_event` fails with a conflict when a registration for
the (event, user) pair exists, fails with the capacity error when
`maxParticipants > 0` and the count has reached it, otherwise appends
exactly one registration carrying the current timestamp; registering one
below a positive capacity succeeds and brings the count to exactly
`maxParticipants`. -/
theorem register_for_event_spec (db : DB) (eventId userId : String)
    (now : Nat) (event : Event)
    (hfind : db.events.find? (fun e => e.id == eventId) = some event) :
    ((∃ r ∈ event.registeredParticipants, r.userId = userId) →
      register_for_event db eventId userId now
        = (OpResult.err "Already registered for this event", db))
    ∧ ((∀ r ∈ event.registeredParticipants, r.userId ≠ userId) →
      event.maxParticipants > 0 →
      (event.registeredParticipants.length : Int) ≥ event.maxParticipants →
      register_for_event db eventId userId now
        = (OpResult.err "Event is full", db))
    ∧ ((∀ r ∈ event.registeredParticipants, r.userId ≠ userId) →
      (event.maxParticipants ≤ 0
        ∨ (event.registeredParticipants.length : Int) < event.maxParticipants) →
      (register_for_event db eventId userId now).1
          = OpResult.ok "Successfully registered for event"
        ∧ ∃ e2, (register_for_event db eventId userId now).2.events.find?
              (fun e => e.id == eventId) = some e2
            ∧ e2.registeredParticipants = event.registeredParticipants
                ++ [{ userId := userId, registeredAt := now }])
    ∧ ((∀ r ∈ event.registeredParticipants, r.userId ≠ userId) →
      event.maxParticipants > 0 →
      (event.registeredParticipants.length : Int) = event.maxParticipants - 1 →
      (register_for_event db eventId userId now).1
          = OpResult.ok "Successfully registered for event"
        ∧ ∃ e2, (register_for_event db eventId userId now).2.events.find?
              (fun e => e.id == eventId) = some e2
            ∧ (e2.registeredParticipants.length : Int) = event.maxParticipants) := by
  have main3 : (∀ r ∈ event.registeredParticipants, r.userId ≠ userId) →
      (event.maxParticipants ≤ 0
        ∨ (event.registeredParticipants.length : Int) < event.maxParticipants) →
      (register_for_event db eventId userId now).1
          = OpResult.ok "Successfully registered for event"
        ∧ ∃ e2, (register_for_event db eventId userId now).2.events.find?
              (fun e => e.id == eventId) = some e2
            ∧ e2.registeredParticipants = event.registeredParticipants
                ++ [{ userId := userId, registeredAt := now }] := by
    intro hnreg hcap
    have hany : event.registeredParticipants.any
        (fun r => r.userId == userId) = false := by
      rw [List.any_eq_false]
      intro r hr
      simpa using hnreg r hr
    have hc : ¬(event.maxParticipants > 0
        ∧ (event.registeredParticipants.length : Int) ≥ event.maxParticipants) := by
      rcases hcap with h | h <;> (intro hh; omega)
    refine ⟨by simp [register_for_event, hfind, hany, hc], ?_⟩
    have h2 : (register_for_event db eventId userId now).2.events
        = updateFirst (fun e => e.id == eventId)
            (fun e => { e with registeredParticipants :=
              e.registeredParticipants
                ++ [{ userId := userId, registeredAt := now }] })
            db.events := by
      simp [register_for_event, hfind, hany, hc]
    have huf := @updateFirst_find? Event (fun e => e.id == eventId)
      (fun e => { e with registeredParticipants :=
        e.registeredParticipants
          ++ [{ userId := userId, registeredAt := now }] })
      (fun a ha => ha) db.events
    refine ⟨{ event with registeredParticipants :=
      event.registeredParticipants
        ++ [{ userId := userId, registeredAt := now }] }, ?_, rfl⟩
    rw [h2, huf, hfind]
    rfl
  refine ⟨?_, ?_, main3, ?_⟩
  · rintro ⟨r, hr, hru⟩
    have hany : event.registeredParticipants.any
        (fun r => r.userId == userId) = true := by
      rw [List.any_eq_true]
      exact ⟨r, hr, by simpa using hru⟩
    simp [register_for_event, hfind, hany]
  · intro hnreg hpos hge
    have hany : event.registeredParticipants.any
        (fun r => r.userId == userId) = false := by
      rw [List.any_eq_false]
      intro r hr
      simpa using hnreg r hr
    have hc : event.maxParticipants > 0
        ∧ (event.registeredParticipants.length : Int) ≥ event.maxParticipants :=
      ⟨hpos, hge⟩
    simp [register_for_event, hfind, hany, hc]
  · intro hnreg hpos heq
    rcases main3 hnreg (Or.inr (by omega)) with ⟨h1, e2, h2, h3⟩
    refine ⟨h1, e2, h2, ?_⟩
    rw [h3]
    simp only [List.length_append, List.length_cons, List.length_nil]
    push_cast
    omega

/-- C4 witness: an event with capacity 2 and one registration accepts one
more and is then exactly full. -/
theorem register_for_event_spec_witness :
    (register_for_event
        { users := [], clubs := [],
          events := [sampleEvent "e1" "c1" 2
            [{ userId := "u0", registeredAt := 0 }] EventStatus.approved],
          published := [] } "e1" "u1" 7).1
      = OpResult.ok "Successfully registered for event"
    ∧ ∃ e2, (register_for_event
        { users := [], clubs := [],
          events := [sampleEvent "e1" "c1" 2
            [{ userId := "u0", registeredAt := 0 }] EventStatus.approved],
          published := [] } "e1" "u1" 7).2.events.find?
          (fun e => e.id == "e1") = some e2
        ∧ (e2.registeredParticipants.length : Int)
            = (sampleEvent "e1" "c1" 2 [{ userId := "u0", registeredAt := 0 }]
                EventStatus.approved).maxParticipants :=
  (register_for_event_spec _ "e1" "u1" 7
      (sampleEvent "e1" "c1" 2 [{ userId := "u0", registeredAt := 0 }]
        EventStatus.approved) (by decide)).2.2.2
    (by decide) (by decide) (by decide)

/-- C2: event approval is authorized by global role only: any approver who
is not found or whose role is neither faculty nor admin (in particular an
active club officer with role student) is denied; a faculty/admin approver
of an existing event gets the event's status set to approved with the
approver identity, the notes (default empty) and the approved budget
(default 0) recorded. -/
theorem approve_event_spec (redisOk : Bool) (db : DB) (eventId : String)
    (ad : ApproverData) (approverId : String) (now : Nat) :
    (db.users.find? (fun v => v.id == approverId) = none →
      approve_event redisOk db eventId ad approverId now
        = (OpResult.err "Unauthorized to approve events", db))
    ∧ (∀ u, db.users.find? (fun v => v.id == approverId) = some u →
      u.role ≠ "faculty" → u.role ≠ "admin" →
      approve_event redisOk db eventId ad approverId now
        = (OpResult.err "Unauthorized to approve events", db))
    ∧ (∀ u event, db.users.find? (fun v => v.id == approverId) = some u →
      (u.role = "faculty" ∨ u.role = "admin") →
      db.events.find? (fun e => e.id == eventId) = some event →
      ∃ e2, (approve_event redisOk db eventId ad approverId now).2.events.find?
          (fun e => e.id == eventId) = some e2
        ∧ e2.status = EventStatus.approved
        ∧ e2.approvedBy = some approverId
        ∧ e2.approvalNotes = ad.approvalNotes.getD ""
        ∧ e2.budgetApproved = ad.approvedBudget.getD 0
        ∧ (ad.approvalNotes = none → e2.approvalNotes = "")
        ∧ (ad.approvedBudget = none → e2.budgetApproved = 0)) := by
  refine ⟨?_, ?_, ?_⟩
  · intro h
    simp [approve_event, h]
  · intro u hu hr1 hr2
    have hrole : (u.role == "faculty" || u.role == "admin") = false := by
      simp [hr1, hr2]
    simp [approve_event, hu, hrole]
  · intro u event hu hrole hev
    have hroleb : (u.role == "faculty" || u.role == "admin") = true := by
      rcases hrole with h | h <;> simp [h]
    have huf := @updateFirst_find? Event (fun e => e.id == eventId)
      (fun e => { e with status := EventStatus.approved
                         approvedBy := some approverId
                         approvalNotes := ad.approvalNotes.getD ""
                         budgetApproved := ad.approvedBudget.getD 0 })
      (fun a ha => ha) db.events
    have hres : (approve_event redisOk db eventId ad approverId now).2.events
        = updateFirst (fun e => e.id == eventId)
            (fun e => { e with status := EventStatus.approved
                               approvedBy := some approverId
                               approvalNotes := ad.approvalNotes.getD ""
                               budgetApproved := ad.approvedBudget.getD 0 })
            db.events := by
      simp only [approve_event, hu, hroleb, Bool.not_true, Bool.false_eq_true,
        if_false, hev]
      split
      · rfl
      · rw [publish_events]
    refine ⟨{ event with status := EventStatus.approved
                         approvedBy := some approverId
                         approvalNotes := ad.approvalNotes.getD ""
                         budgetApproved := ad.approvedBudget.getD 0 },
      ?_, rfl, rfl, rfl, rfl, fun h => by rw [h]; rfl, fun h => by rw [h]; rfl⟩
    rw [hres, huf, hev]
    rfl

/-- C2 witness: an active club president with global role student is denied
event approval. -/
theorem approve_event_spec_witness :
    approve_event true
      { users := [sampleUser "s1" "s@x" "student"],
        clubs := [sampleClub "c1" [sampleMember "s1" "president"
          MembershipStatus.active]],
        events := [sampleEvent "e1" "c1" 0 [] EventStatus.pending],
        published := [] } "e1" { approvalNotes := none, approvedBudget := none }
      "s1" 3
      = (OpResult.err "Unauthorized to approve events",
        { users := [sampleUser "s1" "s@x" "student"],
          clubs := [sampleClub "c1" [sampleMember "s1" "president"
            MembershipStatus.active]],
          events := [sampleEvent "e1" "c1" 0 [] EventStatus.pending],
          published := [] }) :=
  (approve_event_spec true _ "e1"
      { approvalNotes := none, approvedBudget := none } "s1" 3).2.1
    (sampleUser "s1" "s@x" "student") (by decide) (by decide) (by decide)

/-- C9: a failure of the notification publish never fails the parent
operation: `create_club`, `join_club`, `create_event` and `approve_event`
return the same result and leave the same user/club/event state whether
the redis publish succeeds (`true`) or raises and is swallowed inside
`_publish_notification` (`false`). -/
theorem publish_failure_harmless :
    (∀ db cd creatorId newId now,
      (create_club false db cd creatorId newId now).1
          = (create_club true db cd creatorId newId now).1
        ∧ (create_club false db cd creatorId newId now).2.users
          = (create_club true db cd creatorId newId now).2.users
        ∧ (create_club false db cd creatorId newId now).2.clubs
          = (create_club true db cd creatorId newId now).2.clubs
        ∧ (create_club false db cd creatorId newId now).2.events
          = (create_club true db cd creatorId newId now).2.events)
    ∧ (∀ db clubId userId now,
      (join_club false db clubId userId now).1
          = (join_club true db clubId userId now).1
        ∧ (join_club false db clubId userId now).2.users
          = (join_club true db clubId userId now).2.users
        ∧ (join_club false db clubId userId now).2.clubs
          = (join_club true db clubId userId now).2.clubs
        ∧ (join_club false db clubId userId now).2.events
          = (join_club true db clubId userId now).2.events)
    ∧ (∀ db ed creatorId newId now,
      (create_event false db ed creatorId newId now).1
          = (create_event true db ed creatorId newId now).1
        ∧ (create_event false db ed creatorId newId now).2.users
          = (create_event true db ed creatorId newId now).2.users
        ∧ (create_event false db ed creatorId newId now).2.clubs
          = (create_event true db ed creatorId newId now).2.clubs
        ∧ (create_event false db ed creatorId newId now).2.events
          = (create_event true db ed creatorId newId now).2.events)
    ∧ (∀ db eventId ad approverId now,
      (approve_event false db eventId ad approverId now).1
          = (approve_event true db eventId ad approverId now).1
        ∧ (approve_event false db eventId ad approverId now).2.users
          = (approve_event true db eventId ad approverId now).2.users
        ∧ (approve_event false db eventId ad approverId now).2.clubs
          = (approve_event true db eventId ad approverId now).2.clubs
        ∧ (approve_event false db eventId ad approverId now).2.events
          = (approve_event true db eventId ad approverId now).2.events) := by
  refine ⟨?_, ?_, ?_, ?_⟩
  · intro db cd creatorId newId now
    unfold create_club
    repeat' split
    all_goals exact ⟨rfl, rfl, rfl, rfl⟩
  · intro db clubId userId now
    unfold join_club
    try simp only []
    repeat' split
    all_goals exact ⟨rfl, rfl, rfl, rfl⟩
  · intro db ed creatorId newId now
    unfold create_event
    try simp only []
    repeat' split
    all_goals exact ⟨rfl, rfl, rfl, rfl⟩
  · intro db eventId ad approverId now
    unfold approve_event
    try simp only []
    repeat' split
    all_goals exact ⟨rfl, rfl, rfl, rfl⟩

/-- C5: `join_club` creates a new pending membership, fails with a
conflict error if a membership for the user already exists in the club in
any status, and a second join immediately after a successful join fails
and leaves the club's member list with exactly one entry for the user. -/
theorem join_club_spec (redisOk : Bool) (db : DB) (clubId userId : String)
    (now : Nat) (club : Club)
    (hfind : db.clubs.find? (fun c => c.id == clubId) = some club)
    (hact : club.isActive = true) :
    ((∃ m ∈ club.members, m.userId = userId) →
      join_club redisOk db clubId userId now
        = (OpResult.err "Already a member of this club", db))
    ∧ ((∀ m ∈ club.members, m.userId ≠ userId) →
      (∃ u, db.users.find? (fun u => u.id == userId) = some u) →
      (join_club redisOk db clubId userId now).1
          = OpResult.ok "Membership request sent successfully"
        ∧ (∃ club2, (join_club redisOk db clubId userId now).2.clubs.find?
              (fun c => c.id == clubId) = some club2
            ∧ club2.members = club.members
                ++ [{ userId := userId, role := "member",
                      status := MembershipStatus.pending, joinedAt := now }]
            ∧ club2.members.countP (fun m => m.userId == userId) = 1)
        ∧ join_club redisOk (join_club redisOk db clubId userId now).2
              clubId userId now
            = (OpResult.err "Already a member of this club",
               (join_club redisOk db clubId userId now).2)) := by
  constructor
  · rintro ⟨m, hm, hmu⟩
    have hany : club.members.any (fun m => m.userId == userId) = true := by
      rw [List.any_eq_true]
      exact ⟨m, hm, by simpa using hmu⟩
    simp [join_club, hfind, hact, hany]
  · rintro hnone ⟨u, hu⟩
    have hany : club.members.any (fun m => m.userId == userId) = false := by
      rw [List.any_eq_false]
      intro m hm
      simpa using hnone m hm
    have huf2 := @updateFirst_find? User (fun v => v.id == userId)
      (fun v => { v with clubs := v.clubs ++ [(clubId, "member")] })
      (fun a ha => ha) db.users
    have huf1 := @updateFirst_find? Club (fun c => c.id == clubId)
      (fun c => { c with members := c.members
        ++ [{ userId := userId, role := "member",
              status := MembershipStatus.pending, joinedAt := now }] })
      (fun a ha => ha) db.clubs
    have hclubs : (join_club redisOk db clubId userId now).2.clubs
        = updateFirst (fun c => c.id == clubId)
            (fun c => { c with members := c.members
              ++ [{ userId := userId, role := "member",
                    status := MembershipStatus.pending, joinedAt := now }] })
            db.clubs := by
      simp only [join_club, hfind, hact, Bool.not_true, Bool.false_eq_true,
        if_false, hany, huf2, hu, Option.map_some']
      rw [publish_clubs]
    have hfc : (join_club redisOk db clubId userId now).2.clubs.find?
        (fun c => c.id == clubId)
        = some { club with members := club.members
            ++ [{ userId := userId, role := "member",
                  status := MembershipStatus.pending, joinedAt := now }] } := by
      rw [hclubs, huf1, hfind]
      rfl
    refine ⟨?_, ?_, ?_⟩
    · simp only [join_club, hfind, hact, Bool.not_true, Bool.false_eq_true,
        if_false, hany, huf2, hu, Option.map_some']
    · refine ⟨{ club with members := club.members
        ++ [{ userId := userId, role := "member",
              status := MembershipStatus.pending, joinedAt := now }] },
        hfc, rfl, ?_⟩
      have hz : club.members.countP (fun m => m.userId == userId) = 0 := by
        rw [List.countP_eq_zero]
        intro m hm
        simpa using hnone m hm
      rw [List.countP_append, hz]
      simp [List.countP_cons]
    · have hany2 : ({ club with members := club.members
          ++ [{ userId := userId, role := "member",
                status := MembershipStatus.pending, joinedAt := now }]
          : Club }).members.any (fun m => m.userId == userId) = true := by
        rw [List.any_eq_true]
        exact ⟨{ userId := userId, role := "member",
                 status := MembershipStatus.pending, joinedAt := now },
          by simp, by simp⟩
      have h3 : ∀ dbn : DB, dbn.clubs.find? (fun c => c.id == clubId)
          = some { club with members := club.members
              ++ [{ userId := userId, role := "member",
                    status := MembershipStatus.pending, joinedAt := now }] } →
          join_club redisOk dbn clubId userId now
            = (OpResult.err "Already a member of this club", dbn) := by
        intro dbn hfcn
        simp [join_club, hfcn, hact, hany2]
      exact h3 _ hfc

/-- C5 witness: joining an active empty club succeeds with a single pending
membership, and the immediate second join is rejected. -/
theorem join_club_spec_witness :
    (join_club true
        { users := [sampleUser "s1" "s@x" "student"],
          clubs := [sampleClub "c1" []], events := [], published := [] }
        "c1" "s1" 4).1
      = OpResult.ok "Membership request sent successfully"
    ∧ (∃ club2, (join_club true
        { users := [sampleUser "s1" "s@x" "student"],
          clubs := [sampleClub "c1" []], events := [], published := [] }
        "c1" "s1" 4).2.clubs.find? (fun c => c.id == "c1") = some club2
        ∧ club2.members = (sampleClub "c1" []).members
            ++ [{ userId := "s1", role := "member",
                  status := MembershipStatus.pending, joinedAt := 4 }]
        ∧ club2.members.countP (fun m => m.userId == "s1") = 1)
    ∧ join_club true (join_club true
        { users := [sampleUser "s1" "s@x" "student"],
          clubs := [sampleClub "c1" []], events := [], published := [] }
        "c1" "s1" 4).2 "c1" "s1" 4
      = (OpResult.err "Already a member of this club",
        (join_club true
          { users := [sampleUser "s1" "s@x" "student"],
            clubs := [sampleClub "c1" []], events := [], published := [] }
          "c1" "s1" 4).2) :=
  (join_club_spec true _ "c1" "s1" 4 (sampleClub "c1" []) (by decide)
      (by decide)).2
    (by decide) ⟨sampleUser "s1" "s@x" "student", by decide⟩

/-- C6: `approve_membership` by an authorized actor fails with the
not-found error when the user has no membership record in the club; on an
existing membership it succeeds and the membership status becomes active;
and a second approve right after is a no-op: it returns the same success
result and leaves the store exactly as the first approve left it. -/
theorem approve_membership_spec (db : DB)
    (clubId memberId approverId : String) (club : Club)
    (hfind : db.clubs.find? (fun c => c.id == clubId) = some club)
    (hauth : _can_approve_membership db club approverId = true) :
    ((∀ m ∈ club.members, m.userId ≠ memberId) →
      approve_membership db clubId memberId approverId
        = (OpResult.err "Member not found", db))
    ∧ ((∃ m ∈ club.members, m.userId = memberId) →
      (approve_membership db clubId memberId approverId).1
          = OpResult.ok "Membership approved successfully"
        ∧ getMemberStatus (approve_membership db clubId memberId approverId).2
            clubId memberId = some MembershipStatus.active
        ∧ approve_membership
              (approve_membership db clubId memberId approverId).2
              clubId memberId approverId
            = approve_membership db clubId memberId approverId) := by
  constructor
  · intro hnone
    have hany : club.members.any (fun m => m.userId == memberId) = false := by
      rw [List.any_eq_false]
      intro m hm
      simpa using hnone m hm
    have hset : setMemberActive memberId club.members = none := by
      rw [setMemberActive_eq, if_neg]
      simp [hany]
    simp [approve_membership, hfind, hauth, hset]
  · rintro ⟨m, hm, hmu⟩
    have hany : club.members.any (fun m => m.userId == memberId) = true := by
      rw [List.any_eq_true]
      exact ⟨m, hm, by simpa using hmu⟩
    have h1 := approve_membership_ok db clubId memberId approverId club
      hfind hauth hany
    have hpclub : (club.id == clubId) = true := by
      simpa using List.find?_some hfind
    have hfc2 : (approvedDB db clubId club memberId).clubs.find?
        (fun c => c.id == clubId) = some (approvedClub club memberId) := by
      have huc : (approvedDB db clubId club memberId).clubs
          = updateFirst (fun c => c.id == clubId)
              (fun _ => approvedClub club memberId) db.clubs := rfl
      rw [huc, @updateFirst_find? Club (fun c => c.id == clubId)
        (fun _ => approvedClub club memberId) (fun a _ => hpclub) db.clubs,
        hfind]
      rfl
    refine ⟨by rw [h1], ?_, ?_⟩
    · cases hm0 : club.members.find? (fun m => m.userId == memberId) with
      | none =>
        rw [List.find?_eq_none] at hm0
        exact absurd (by simpa using hmu) (hm0 m hm)
      | some m0 =>
        have hfm : (activateMember memberId club.members).find?
            (fun m => m.userId == memberId)
            = some { m0 with status := MembershipStatus.active } := by
          rw [activateMember, @updateFirst_find? Membership
            (fun m => m.userId == memberId)
            (fun m => { m with status := MembershipStatus.active })
            (fun a ha => ha) club.members, hm0]
          rfl
        rw [h1]
        show getMemberStatus (approvedDB db clubId club memberId)
          clubId memberId = some MembershipStatus.active
        rw [getMemberStatus, hfc2]
        show ((approvedClub club memberId).members.find?
          (fun m => m.userId == memberId)).map (·.status)
            = some MembershipStatus.active
        rw [show (approvedClub club memberId).members
          = activateMember memberId club.members from rfl, hfm]
        rfl
    · have hauth2 : _can_approve_membership (approvedDB db clubId club memberId)
          (approvedClub club memberId) approverId = true := by
        have husers : isFacultyOrAdmin (approvedDB db clubId club memberId)
            approverId = isFacultyOrAdmin db approverId := rfl
        by_cases hfa : isFacultyOrAdmin db approverId = true
        · simp only [_can_approve_membership, husers, hfa, if_true]
        · simp only [_can_approve_membership, husers, if_neg hfa]
          simp only [_can_approve_membership, if_neg hfa] at hauth
          show (activateMember memberId club.members).any _ = true
          rw [activateMember]
          refine any_updateFirst_mono (fun a ha => ?_) hauth
          simp at ha ⊢
          exact ⟨ha.1.1, ha.2⟩
      have hany2 : (approvedClub club memberId).members.any
          (fun m => m.userId == memberId) = true := by
        show (activateMember memberId club.members).any _ = true
        rw [activateMember]
        rw [@any_updateFirst_congr Membership (fun m => m.userId == memberId)
          (fun m => { m with status := MembershipStatus.active })
          (fun m => m.userId == memberId) (fun a => rfl) club.members]
        exact hany
      have h2 := approve_membership_ok (approvedDB db clubId club memberId)
        clubId memberId approverId (approvedClub club memberId)
        hfc2 hauth2 hany2
      have hcc : approvedClub (approvedClub club memberId) memberId
          = approvedClub club memberId := by
        show ({ approvedClub club memberId with
          members := activateMember memberId
            (activateMember memberId club.members) } : Club)
            = approvedClub club memberId
        rw [show activateMember memberId (activateMember memberId club.members)
          = activateMember memberId club.members from
          @updateFirst_idem Membership (fun m => m.userId == memberId)
            (fun m => { m with status := MembershipStatus.active })
            (fun a ha => ha) (fun a _ => rfl) club.members]
        rfl
      have hdd : approvedDB (approvedDB db clubId club memberId) clubId
          (approvedClub club memberId) memberId
          = approvedDB db clubId club memberId := by
        show ({ approvedDB db clubId club memberId with
          clubs := updateFirst (fun c => c.id == clubId)
            (fun _ => approvedClub (approvedClub club memberId) memberId)
            (approvedDB db clubId club memberId).clubs } : DB)
            = approvedDB db clubId club memberId
        simp only [hcc]
        rw [show (approvedDB db clubId club memberId).clubs
          = updateFirst (fun c => c.id == clubId)
              (fun _ => approvedClub club memberId) db.clubs from rfl]
        rw [@updateFirst_idem Club (fun c => c.id == clubId)
          (fun _ => approvedClub club memberId)
          (fun a _ => hpclub) (fun a _ => rfl) db.clubs]
        rfl
      rw [h1, h2, hdd]

/-- C6 witness: approving a pending membership succeeds, activates it, and
a repeated approve is a no-op. -/
theorem approve_membership_spec_witness :
    (approve_membership
        { users := [sampleUser "f1" "f@x" "faculty",
            sampleUser "s1" "s@x" "student"],
          clubs := [sampleClub "c1" [sampleMember "s1" "member"
            MembershipStatus.pending]],
          events := [], published := [] } "c1" "s1" "f1").1
      = OpResult.ok "Membership approved successfully"
    ∧ getMemberStatus (approve_membership
        { users := [sampleUser "f1" "f@x" "faculty",
            sampleUser "s1" "s@x" "student"],
          clubs := [sampleClub "c1" [sampleMember "s1" "member"
            MembershipStatus.pending]],
          events := [], published := [] } "c1" "s1" "f1").2 "c1" "s1"
      = some MembershipStatus.active
    ∧ approve_membership (approve_membership
        { users := [sampleUser "f1" "f@x" "faculty",
            sampleUser "s1" "s@x" "student"],
          clubs := [sampleClub "c1" [sampleMember "s1" "member"
            MembershipStatus.pending]],
          events := [], published := [] } "c1" "s1" "f1").2 "c1" "s1" "f1"
      = approve_membership
        { users := [sampleUser "f1" "f@x" "faculty",
            sampleUser "s1" "s@x" "student"],
          clubs := [sampleClub "c1" [sampleMember "s1" "member"
            MembershipStatus.pending]],
          events := [], published := [] } "c1" "s1" "f1" :=
  (approve_membership_spec _ "c1" "s1" "f1"
      (sampleClub "c1" [sampleMember "s1" "member" MembershipStatus.pending])
      (by decide) (by decide)).2
    ⟨sampleMember "s1" "member" MembershipStatus.pending, by decide, rfl⟩

theorem register_user_preserves_unique (db : DB) (d : UserData)
    (newId : String) (now : Nat)
    (he : emailsUnique db.users) (hs : studentIdsUnique db.users) :
    emailsUnique (register_user db d newId now).2.users
    ∧ studentIdsUnique (register_user db d newId now).2.users := by
  unfold register_user
  try simp only []
  split
  · exact ⟨he, hs⟩
  · split
    · exact ⟨he, hs⟩
    · rename_i hemail
      split
      · exact ⟨he, hs⟩
      · split
        · exact ⟨he, hs⟩
        · rename_i hsidmissing hsiddup
          constructor
          · rw [emailsUnique, List.pairwise_append]
            refine ⟨he, by simp [emailsUnique], ?_⟩
            intro a ha b hb
            simp only [List.mem_singleton] at hb
            subst hb
            have hfe : db.users.find?
                (fun u => u.email == d.email.getD "") = none := by
              cases hcase : db.users.find?
                  (fun u => u.email == d.email.getD "") with
              | none => rfl
              | some u => rw [hcase] at hemail; simp at hemail
            rw [List.find?_eq_none] at hfe
            have h5 := hfe a ha
            simpa using h5
          · rw [studentIdsUnique, List.pairwise_append]
            refine ⟨hs, by simp [studentIdsUnique], ?_⟩
            intro a ha b hb
            simp only [List.mem_singleton] at hb
            subst hb
            intro s hsa
            show (if (d.role.getD "" == "student") = true
              then d.studentId else none) ≠ some s
            by_cases hrl : (d.role.getD "" == "student") = true
            · rw [if_pos hrl]
              intro hds
              have hfs : db.users.find?
                  (fun u => u.studentId == d.studentId) = none := by
                cases hcase : db.users.find?
                    (fun u => u.studentId == d.studentId) with
                | none => rfl
                | some u => rw [hcase] at hsiddup; simp [hrl] at hsiddup
              rw [List.find?_eq_none] at hfs
              have h5 := hfs a ha
              rw [hds, hsa] at h5
              simp at h5
            · rw [if_neg hrl]
              simp

/-- C8: email uniqueness and (for students) student-id uniqueness are
invariants of the user store: with the required fields present,
`register_user` fails with a conflict when the email or (for a student)
the student id already exists, and any sequence of `register_user` calls
preserves uniqueness of emails and student ids. -/
theorem register_user_unique_invariant :
    (∀ db d newId now em, d.name.isSome = true → d.password.isSome = true →
      d.role.isSome = true → d.email = some em →
      (∃ u ∈ db.users, u.email = em) →
      register_user db d newId now
        = (OpResult.err "Email already exists", db))
    ∧ (∀ db d newId now sid, d.name.isSome = true →
      d.password.isSome = true → d.email.isSome = true →
      d.role = some "student" → d.studentId = some sid →
      d.year.isSome = true →
      (∀ u ∈ db.users, u.email ≠ d.email.getD "") →
      (∃ u ∈ db.users, u.studentId = some sid) →
      register_user db d newId now
        = (OpResult.err "Student ID already exists", db))
    ∧ (∀ db inputs, emailsUnique db.users → studentIdsUnique db.users →
      emailsUnique (registerAll db inputs).users
      ∧ studentIdsUnique (registerAll db inputs).users) := by
  refine ⟨?_, ?_, ?_⟩
  · rintro db d newId now em hn hp hr hde ⟨u, hu, hue⟩
    obtain ⟨nm, hnm⟩ := Option.isSome_iff_exists.mp hn
    obtain ⟨pw, hpw⟩ := Option.isSome_iff_exists.mp hp
    obtain ⟨rl, hrl⟩ := Option.isSome_iff_exists.mp hr
    have hfindSome : (db.users.find? (fun v => v.email == em)).isSome
        = true := by
      rw [List.find?_isSome]
      exact ⟨u, hu, by simpa using hue⟩
    simp [register_user, hnm, hpw, hrl, hde, hfindSome]
  · rintro db d newId now sid hn hp he hr hsid hy hnew ⟨u, hu, hus⟩
    obtain ⟨nm, hnm⟩ := Option.isSome_iff_exists.mp hn
    obtain ⟨pw, hpw⟩ := Option.isSome_iff_exists.mp hp
    obtain ⟨em, hem⟩ := Option.isSome_iff_exists.mp he
    obtain ⟨yr, hyr⟩ := Option.isSome_iff_exists.mp hy
    have hfe : db.users.find? (fun v => v.email == d.email.getD "") = none := by
      rw [List.find?_eq_none]
      intro v hv
      simpa using hnew v hv
    have hfs : (db.users.find? (fun v => v.studentId == d.studentId)).isSome
        = true := by
      rw [List.find?_isSome]
      refine ⟨u, hu, ?_⟩
      rw [hus, hsid]
      exact beq_self_eq_true _
    have hne : ¬∃ x ∈ db.users, x.email = em := by
      rintro ⟨x, hx, hxe⟩
      apply hnew x hx
      rw [hem]
      exact hxe
    have hex : ∃ x ∈ db.users, x.studentId = some sid := ⟨u, hu, hus⟩
    simp [register_user, hnm, hpw, hem, hr, hsid, hyr, hne, hex]
  · intro db inputs
    induction inputs generalizing db with
    | nil => intro he hs; exact ⟨he, hs⟩
    | cons x rest ih =>
      intro he hs
      obtain ⟨d, newId, now⟩ := x
      have h := register_user_preserves_unique db d newId now he hs
      simpa [registerAll] using ih (register_user db d newId now).2 h.1 h.2

/-- C8 witness: registering a duplicate email is rejected with the
conflict error and leaves the store unchanged. -/
theorem register_user_unique_invariant_witness :
    register_user
      { users := [sampleUser "u1" "a@x" "student"], clubs := [], events := [],
        published := [] }
      { name := some "n", email := some "a@x", password := some "p",
        role := some "faculty", studentId := none, year := none,
        department := none } "u2" 9
      = (OpResult.err "Email already exists",
        { users := [sampleUser "u1" "a@x" "student"], clubs := [],
          events := [], published := [] }) :=
  register_user_unique_invariant.1 _ _ "u2" 9 "a@x" rfl rfl rfl rfl
    ⟨sampleUser "u1" "a@x" "student", by decide, rfl⟩

theorem noRejected_applyAction (a : Action) (db : DB) (h : noRejected db) :
    noRejected (applyAction a db) := by
  cases a with
  | registerUser d newId now =>
    show noRejected (register_user db d newId now).2
    unfold register_user
    try simp only []
    repeat' split
    all_goals exact h
  | createClub r cd creatorId newId now =>
    show noRejected (create_club r db cd creatorId newId now).2
    unfold create_club
    try simp only []
    repeat' split
    all_goals try exact h
    intro c hc m hm
    rw [publish_clubs] at hc
    rcases List.mem_append.mp hc with h1 | h1
    · exact h c h1 m hm
    · simp only [List.mem_singleton] at h1
      subst h1
      simp at hm
  | joinClub r clubId userId now =>
    show noRejected (join_club r db clubId userId now).2
    have hkey : ∀ c ∈ updateFirst (fun c => c.id == clubId)
        (fun c => { c with members := c.members
          ++ [{ userId := userId, role := "member",
                status := MembershipStatus.pending, joinedAt := now }] })
        db.clubs, ∀ m ∈ c.members,
        m.status ≠ MembershipStatus.rejected := by
      intro c hc m hm
      rcases mem_updateFirst hc with h1 | ⟨a, ha, h2⟩
      · exact h c h1 m hm
      · subst h2
        have hm2 : m ∈ a.members
            ∨ m = { userId := userId, role := "member",
                    status := MembershipStatus.pending, joinedAt := now } := by
          simpa using hm
        rcases hm2 with h3 | h3
        · exact h a ha m h3
        · subst h3
          simp
    unfold join_club
    try simp only []
    cases hf : db.clubs.find? (fun c => c.id == clubId) with
    | none => simp only [hf]; exact h
    | some club =>
      simp only [hf]
      split
      · exact h
      · split
        · exact h
        · split
          · intro c hc
            exact hkey c hc
          · intro c hc
            rw [publish_clubs] at hc
            exact hkey c hc
  | approveMembership clubId memberId approverId =>
    show noRejected (approve_membership db clubId memberId approverId).2
    unfold approve_membership
    cases hf : db.clubs.find? (fun c => c.id == clubId) with
    | none => simp only [hf]; exact h
    | some club =>
      simp only [hf]
      split
      · exact h
      · cases hs : setMemberActive memberId club.members with
        | none => simp only [hs]; exact h
        | some ms =>
          simp only [hs]
          have hclub : club ∈ db.clubs := List.mem_of_find?_eq_some hf
          intro c hc m hm
          rcases mem_updateFirst hc with h1 | ⟨a, ha, h2⟩
          · exact h c h1 m hm
          · subst h2
            rw [setMemberActive_eq] at hs
            by_cases hany : (club.members.any
                (fun m => m.userId == memberId)) = true
            · rw [if_pos hany] at hs
              injection hs with hs2
              rw [← hs2] at hm
              rcases mem_updateFirst (by simpa using hm) with h3 | ⟨b, hb, h4⟩
              · exact h club hclub m h3
              · subst h4
                simp
            · rw [if_neg hany] at hs
              cases hs
  | createEvent r ed creatorId newId now =>
    show noRejected (create_event r db ed creatorId newId now).2
    have hkey : ∀ c ∈ updateFirst (fun c => c.id == ed.clubId.getD "")
        (fun c => { c with events := c.events ++ [newId] }) db.clubs,
        ∀ m ∈ c.members, m.status ≠ MembershipStatus.rejected := by
      intro c hc m hm
      rcases mem_updateFirst hc with h1 | ⟨a, ha, h2⟩
      · exact h c h1 m hm
      · subst h2
        exact h a ha m (by simpa using hm)
    unfold create_event
    try simp only []
    split
    · exact h
    · cases hf : db.clubs.find? (fun c => c.id == ed.clubId.getD "") with
      | none => simp only [hf]; exact h
      | some club =>
        simp only [hf]
        split
        · exact h
        · split
          · exact h
          · split
            · intro c hc
              exact hkey c hc
            · intro c hc
              rw [publish_clubs] at hc
              exact hkey c hc
  | registerForEvent eventId userId now =>
    show noRejected (register_for_event db eventId userId now).2
    unfold register_for_event
    repeat' split
    all_goals exact h
  | approveEvent r eventId ad approverId now =>
    show noRejected (approve_event r db eventId ad approverId now).2
    unfold approve_event
    try simp only []
    repeat' split
    all_goals try exact h
    intro c hc
    rw [publish_clubs] at hc
    exact h c hc

/-- Running any sequence of operations never produces a rejected
membership. -/
theorem noRejected_applyActions (acts : List Action) (db : DB)
    (h : noRejected db) : noRejected (applyActions acts db) := by
  induction acts generalizing db with
  | nil => exact h
  | cons a rest ih => exact ih (applyAction a db) (noRejected_applyAction a db h)

/-- C3 counterexample: on a store that already contains a rejected
membership, an authorized `approve_membership` returns success and changes
that membership's status to active — the code does not restrict the
transition to pending memberships, so the claim as stated is false. -/
theorem rejected_membership_becomes_active :
    getMemberStatus
      { users := [sampleUser "f1" "f@x" "faculty"],
        clubs := [sampleClub "c1" [sampleMember "u1" "member"
          MembershipStatus.rejected]],
        events := [], published := [] } "c1" "u1"
      = some MembershipStatus.rejected
    ∧ (approve_membership
        { users := [sampleUser "f1" "f@x" "faculty"],
          clubs := [sampleClub "c1" [sampleMember "u1" "member"
            MembershipStatus.rejected]],
          events := [], published := [] } "c1" "u1" "f1").1
      = OpResult.ok "Membership approved successfully"
    ∧ getMemberStatus (approve_membership
        { users := [sampleUser "f1" "f@x" "faculty"],
          clubs := [sampleClub "c1" [sampleMember "u1" "member"
            MembershipStatus.rejected]],
          events := [], published := [] } "c1" "u1" "f1").2 "c1" "u1"
      = some MembershipStatus.active := by
  exact ⟨rfl, rfl, rfl⟩

/-- C3 (amended): no operation of the system ever assigns membership
status rejected: starting from a store with no rejected membership, any
sequence of operations leaves a store with no rejected membership, so in
reachable states the only membership status transition exercised is
pending to active.  (The original claim fails on stores that already hold
a rejected membership, because `approve_membership` activates the named
membership regardless of its prior status.) -/
theorem membership_no_rejected_invariant (db : DB) (acts : List Action)
    (h : noRejected db) : noRejected (applyActions acts db) :=
  noRejected_applyActions acts db h

/-- C3 witness: approving a pending membership keeps the store free of
rejected memberships. -/
theorem membership_no_rejected_invariant_witness :
    noRejected (applyActions [Action.approveMembership "c1" "u1" "f1"]
      { users := [sampleUser "f1" "f@x" "faculty"],
        clubs := [sampleClub "c1" [sampleMember "u1" "member"
          MembershipStatus.pending]],
        events := [], published := [] }) :=
  membership_no_rejected_invariant _ _ (by unfold noRejected; decide)

end ClubsHub
